import Mathlib

/-!
Shallow embedding of the Dogecoin HTCL (Hash Time-Locked Contract)
implementation: `src/dogecoin/htcl_script.py`,
`src/dogecoin/htcl_transaction.py` and the hashlock format conversions of
`src/examples/dogecoin-evm/shared_secret.py`.

Modelling conventions:
* Python `str` is modelled as `List Char`; Python `bytes` as `List Nat`
  (one `Nat` per byte).
* The external cryptographic/encoding libraries (`hashlib.sha256`, the
  hashlib ripemd160 digest, `base58.b58encode`) are not code of this
  repository; they are abstracted as the fields of a `CryptoHash`
  parameter.  All repository logic around them is translated verbatim.
* Python exceptions are modelled with `Except PyError`.
-/

/-- Coerce a Lean string literal to the `List Char` representation used
for Python strings throughout this development. -/
def str (s : String) : List Char := s.data

/-- The Python exceptions that the modelled code can raise:
`ValueError msg` carries the exception message; `attributeError` models an
`AttributeError` (raised by `getattr` on a missing attribute, or by
accessing a missing method such as `list.hex`). -/
inductive PyError where
  | valueError : List Char → PyError
  | attributeError : PyError
deriving DecidableEq, Repr

/-- Abstraction of the external digest / encoding libraries imported by
`htcl_script.py` (`hashlib`, `base58`).  They are collaborators outside
the repository, so they are parameters of the embedding. -/
structure CryptoHash where
  sha256 : List Nat → List Nat
  ripemd160 : List Nat → List Nat
  b58encode : List Nat → List Char

/-- Models Python `str.encode()` (UTF-8 code units; exact for the ASCII
data this code handles). -/
def pyEncode (s : List Char) : List Nat := s.map Char.toNat

/-- Lower-case hex digit for a nibble, as produced by Python `bytes.hex`
and `hexdigest`. -/
def hexDigitChr (n : Nat) : Char :=
  if n < 10 then Char.ofNat (48 + n) else Char.ofNat (87 + n)

/-- Models Python `bytes.hex()` / `.hexdigest()`: two lower-case hex
characters per byte. -/
def hexEncode (bs : List Nat) : List Char :=
  (bs.map fun b => [hexDigitChr (b / 16 % 16), hexDigitChr (b % 16)]).flatten

/-- Value of one hex digit, upper or lower case, as accepted by Python
`bytes.fromhex`. -/
def hexDigitVal (c : Char) : Option Nat :=
  if '0' ≤ c ∧ c ≤ '9' then some (c.toNat - 48)
  else if 'a' ≤ c ∧ c ≤ 'f' then some (c.toNat - 87)
  else if 'A' ≤ c ∧ c ≤ 'F' then some (c.toNat - 55)
  else none

/-- Models Python `bytes.fromhex`: pairs of hex digits to bytes, `none`
on odd length or a non-hex character (a `ValueError` at the call sites). -/
def hexDecode : List Char → Option (List Nat)
  | [] => some []
  | [_] => none
  | c1 :: c2 :: rest =>
    match hexDigitVal c1, hexDigitVal c2, hexDecode rest with
    | some hi, some lo, some bs => some ((16 * hi + lo) :: bs)
    | _, _, _ => none

/-- Models the `HTCLScript` dataclass of `htcl_script.py`. -/
structure HTCLScript where
  alice_pubkey : List Char
  bob_pubkey : List Char
  timelock : Int
  hashlock : List Char
  script_hex : List Char
  p2sh_address : List Char
deriving DecidableEq, Repr

/-- Models `getattr(HTCLScriptGenerator, name)` restricted to the names
that can reach it: the class declares exactly nine `OP_*` integer
attributes, so any other `OP_`-prefixed name (in particular every
`OP_PUSHDATA(...)` part) raises `AttributeError`, modelled by `none`. -/
def opcodeAttr (name : List Char) : Option Nat :=
  if name = str "OP_DUP" then some 0x76
  else if name = str "OP_HASH160" then some 0xa9
  else if name = str "OP_EQUALVERIFY" then some 0x88
  else if name = str "OP_CHECKSIG" then some 0xac
  else if name = str "OP_IF" then some 0x63
  else if name = str "OP_ELSE" then some 0x67
  else if name = str "OP_ENDIF" then some 0x68
  else if name = str "OP_CHECKLOCKTIMEVERIFY" then some 0xb1
  else if name = str "OP_DROP" then some 0x75
  else none

/-- Models one iteration of the `for part in script_parts` loop in
`HTCLScriptGenerator._script_parts_to_hex`.  Note the Python `if`/`elif`
order: a part starting with `"OP_PUSHDATA("` also starts with `"OP_"`, so
it is handled by the `getattr` branch, never by the `elif`. -/
def processPart (acc : List Nat) (part : List Char) : Except PyError (List Nat) :=
  if (str "OP_").isPrefixOf part then
    match opcodeAttr part with
    | some opcode => .ok (acc ++ [opcode])
    | none => .error .attributeError
  else if (str "OP_PUSHDATA(").isPrefixOf part then
    let data := (part.drop 12).dropLast
    let data := if (str "0x").isPrefixOf data then data.drop 2 else data
    match hexDecode data with
    | some data_bytes => .ok (acc ++ [data_bytes.length] ++ data_bytes)
    | none => .error (.valueError (str "non-hexadecimal number found in fromhex() arg"))
  else .ok acc

/-- Models `HTCLScriptGenerator._script_parts_to_hex`.  After the loop the
Python code returns `script_bytes.hex()`, but `script_bytes` is a `list`,
which has no `hex` attribute: reaching the return raises
`AttributeError`. -/
def HTCLScriptGenerator._script_parts_to_hex (script_parts : List (List Char)) :
    Except PyError (List Char) :=
  match script_parts.foldlM processPart ([] : List Nat) with
  | .error e => .error e
  | .ok _script_bytes => .error .attributeError

/-- Models `HTCLScriptGenerator._script_to_p2sh_address`: SHA-256 then
RIPEMD-160 of the script bytes, version byte `0x05` prepended, 4-byte
checksum from a double SHA-256, base-58 encoding. -/
def HTCLScriptGenerator._script_to_p2sh_address (H : CryptoHash) (script_hex : List Char) :
    Except PyError (List Char) :=
  match hexDecode script_hex with
  | none => .error (.valueError (str "non-hexadecimal number found in fromhex() arg"))
  | some script_bytes =>
    let sha256_hash := H.sha256 script_bytes
    let ripemd160_hash := H.ripemd160 sha256_hash
    let version_script_hash := 0x05 :: ripemd160_hash
    let checksum := (H.sha256 (H.sha256 version_script_hash)).take 4
    let address_bytes := version_script_hash ++ checksum
    .ok (H.b58encode address_bytes)

/-- Models Python `str(timelock)`: decimal rendering of the integer, as
interpolated by the f-string `f"OP_PUSHDATA({timelock})"`. -/
def pyIntRepr (n : Int) : List Char := (toString n).data

/-- Models `HTCLScriptGenerator.create`: input validation, assembly of the
`script_parts` list, compilation to hex and address derivation. -/
def HTCLScriptGenerator.create (H : CryptoHash) (alice_pubkey bob_pubkey : List Char)
    (timelock : Int) (hashlock : List Char) : Except PyError HTCLScript :=
  if alice_pubkey = [] ∨ bob_pubkey = [] then
    .error (.valueError (str "Public keys cannot be empty"))
  else if timelock ≤ 0 then
    .error (.valueError (str "Timelock must be positive"))
  else if hashlock = [] ∨ hashlock.length ≠ 40 then
    .error (.valueError (str "Hashlock must be 20 bytes (40 hex characters)"))
  else
    let script_parts : List (List Char) :=
      [str "OP_DUP",
       str "OP_HASH160",
       str "OP_PUSHDATA(" ++ hashlock ++ str ")",
       str "OP_EQUALVERIFY",
       str "OP_DROP",
       str "OP_PUSHDATA(" ++ bob_pubkey ++ str ")",
       str "OP_CHECKSIG",
       str "OP_IF",
       str "OP_ELSE",
       str "OP_PUSHDATA(" ++ pyIntRepr timelock ++ str ")",
       str "OP_CHECKLOCKTIMEVERIFY",
       str "OP_DROP",
       str "OP_PUSHDATA(" ++ alice_pubkey ++ str ")",
       str "OP_CHECKSIG",
       str "OP_ENDIF"]
    match HTCLScriptGenerator._script_parts_to_hex script_parts with
    | .error e => .error e
    | .ok script_hex =>
      match HTCLScriptGenerator._script_to_p2sh_address H script_hex with
      | .error e => .error e
      | .ok p2sh_address =>
        .ok ⟨alice_pubkey, bob_pubkey, timelock, hashlock, script_hex, p2sh_address⟩

/-- Models `HTCLScriptValidator.validate_bob_spending`: recompute the
hashlock from the secret with SHA-256 then RIPEMD-160, compare the
public key with Bob's and check the signature shape. -/
def HTCLScriptValidator.validate_bob_spending (H : CryptoHash) (script : HTCLScript)
    (secret signature pubkey : List Char) : Bool :=
  let secret_hash := hexEncode (H.ripemd160 (H.sha256 (pyEncode secret)))
  if secret_hash ≠ script.hashlock then false
  else if pubkey ≠ script.bob_pubkey then false
  else if signature = [] ∨ signature.length < 64 then false
  else true

/-- Models `HTCLScriptValidator.validate_alice_spending`: timelock
comparison against the caller-supplied height, key comparison, signature
shape check. -/
def HTCLScriptValidator.validate_alice_spending (script : HTCLScript)
    (signature pubkey : List Char) (current_block : Int) : Bool :=
  if current_block < script.timelock then false
  else if pubkey ≠ script.alice_pubkey then false
  else if signature = [] ∨ signature.length < 64 then false
  else true

/-- Models `generate_hashlock` of `htcl_script.py`: SHA-256 of the encoded
secret, then RIPEMD-160, hex-encoded. -/
def generate_hashlock (H : CryptoHash) (secret : List Char) : List Char :=
  hexEncode (H.ripemd160 (H.sha256 (pyEncode secret)))

/-- Models `dogecoin_to_evm_hashlock` of
`src/examples/dogecoin-evm/shared_secret.py`. -/
def dogecoin_to_evm_hashlock (dogecoin_hashlock : List Char) : List Char :=
  if (str "0x").isPrefixOf dogecoin_hashlock then dogecoin_hashlock
  else str "0x" ++ dogecoin_hashlock

/-- Models `evm_to_dogecoin_hashlock` of
`src/examples/dogecoin-evm/shared_secret.py`. -/
def evm_to_dogecoin_hashlock (evm_hashlock : List Char) : List Char :=
  if (str "0x").isPrefixOf evm_hashlock then evm_hashlock.drop 2
  else evm_hashlock

/-- A concrete instantiation of the abstract digest/encoding libraries,
used by witnesses to evaluate the modelled code on concrete inputs. -/
def dummyHash : CryptoHash where
  sha256 := fun bs => bs
  ripemd160 := fun bs => bs
  b58encode := fun bs => hexEncode bs

/-! ### Transaction layer: `src/dogecoin/htcl_transaction.py` -/

/-- Models the UTXO dictionaries consumed by
`create_funding_transaction` (fields `txid`, `vout`, `amount`). -/
structure UTXO where
  txid : List Char
  vout : Int
  amount : Int
deriving DecidableEq, Repr

/-- Models the input dictionaries placed in `HTCLTransaction.inputs`. -/
structure TxInput where
  txid : List Char
  vout : Int
  script_sig : List Char
  sequence : Int
deriving DecidableEq, Repr

/-- Models the output dictionaries placed in `HTCLTransaction.outputs`
(fields `value`, `script_pubkey`, `address`). -/
structure TxOutput where
  value : Int
  script_pubkey : List Char
  address : List Char
deriving DecidableEq, Repr

/-- Models the `HTCLTransaction` dataclass (the optional `script_sig` and
`witness` fields keep their `None` defaults in all modelled paths and are
omitted). -/
structure HTCLTransaction where
  txid : List Char
  version : Int
  inputs : List TxInput
  outputs : List TxOutput
  locktime : Int
deriving DecidableEq, Repr

/-- Models the `HTCLTransactionBuilder` object state set by `__init__`. -/
structure HTCLTransactionBuilder where
  network : List Char
  version : Int
  locktime : Int
deriving DecidableEq, Repr

/-- Models `HTCLTransactionBuilder.__init__(network)`. -/
def HTCLTransactionBuilder.init (network : List Char) : HTCLTransactionBuilder :=
  ⟨network, 1, 0⟩

/-- Models `HTCLTransactionBuilder.create_funding_transaction`: sums the
input amounts, rejects when the change would be negative, emits the HTCL
output and, when change is positive, a change output. -/
def HTCLTransactionBuilder.create_funding_transaction (self : HTCLTransactionBuilder)
    (script : HTCLScript) (amount fee : Int) (input_utxos : List UTXO)
    (change_address : List Char) : Except PyError HTCLTransaction :=
  let total_input := (input_utxos.map (·.amount)).sum
  let change_amount := total_input - amount - fee
  if change_amount < 0 then
    .error (.valueError (str "Insufficient funds for transaction"))
  else
    let inputs := input_utxos.map fun utxo =>
      (⟨utxo.txid, utxo.vout, [], 0xffffffff⟩ : TxInput)
    let htcl_output : TxOutput :=
      ⟨amount, str "OP_HASH160 " ++ script.p2sh_address ++ str " OP_EQUAL",
       script.p2sh_address⟩
    let outputs :=
      if change_amount > 0 then
        [htcl_output,
         ⟨change_amount,
          str "OP_DUP OP_HASH160 " ++ change_address ++ str " OP_EQUALVERIFY OP_CHECKSIG",
          change_address⟩]
      else [htcl_output]
    .ok ⟨[], self.version, inputs, outputs, self.locktime⟩

/-- Models `HTCLTransactionBuilder.create_bob_withdrawal_transaction`:
pre-checks the spending conditions with `validate_bob_spending` (passing
the literal placeholder `"dummy_signature"`), then emits one input
carrying the secret and one output of `amount - fee`. -/
def HTCLTransactionBuilder.create_bob_withdrawal_transaction
    (H : CryptoHash) (self : HTCLTransactionBuilder) (script : HTCLScript)
    (secret : List Char) (amount fee : Int)
    (bob_private_key bob_address : List Char) : Except PyError HTCLTransaction :=
  if ¬ HTCLScriptValidator.validate_bob_spending H script secret
      (str "dummy_signature") script.bob_pubkey then
    .error (.valueError (str "Invalid spending conditions for Bob"))
  else
    let input_data : TxInput :=
      ⟨str "previous_txid", 0, secret ++ str " " ++ script.script_hex, 0xffffffff⟩
    let outputs : List TxOutput :=
      [⟨amount - fee,
        str "OP_DUP OP_HASH160 " ++ bob_address ++ str " OP_EQUALVERIFY OP_CHECKSIG",
        bob_address⟩]
    .ok ⟨[], self.version, [input_data], outputs, self.locktime⟩

/-- Models `HTCLTransactionBuilder.create_alice_withdrawal_transaction`:
pre-checks with `validate_alice_spending` (same placeholder signature),
then emits one input carrying the timelock and one output of
`amount - fee`. -/
def HTCLTransactionBuilder.create_alice_withdrawal_transaction
    (self : HTCLTransactionBuilder) (script : HTCLScript) (amount fee : Int)
    (alice_private_key alice_address : List Char) (current_block : Int) :
    Except PyError HTCLTransaction :=
  if ¬ HTCLScriptValidator.validate_alice_spending script
      (str "dummy_signature") script.alice_pubkey current_block then
    .error (.valueError (str "Invalid spending conditions for Alice"))
  else
    let input_data : TxInput :=
      ⟨str "previous_txid", 0, pyIntRepr script.timelock ++ str " " ++ script.script_hex,
       0xffffffff⟩
    let outputs : List TxOutput :=
      [⟨amount - fee,
        str "OP_DUP OP_HASH160 " ++ alice_address ++ str " OP_EQUALVERIFY OP_CHECKSIG",
        alice_address⟩]
    .ok ⟨[], self.version, [input_data], outputs, self.locktime⟩

/-- Step 1–4 of §4.3 of the specification, written from the
specification's words: commitment digest, versioned payload, double-digest
checksum, base-58 encoding.  Used to compare the source's
`_script_to_p2sh_address` against the specified algorithm. -/
def derive_address_spec (H : CryptoHash) (program : List Nat)
    (network_version_byte : Nat) : List Char :=
  let commitment := H.ripemd160 (H.sha256 program)
  let versioned_payload := network_version_byte :: commitment
  let checksum := (H.sha256 (H.sha256 versioned_payload)).take 4
  H.b58encode (versioned_payload ++ checksum)

/-! ### Decidability of result comparison -/

instance {ε α : Type} [DecidableEq ε] [DecidableEq α] : DecidableEq (Except ε α) := fun x y =>
  match x, y with
  | .error a, .error b =>
    if h : a = b then .isTrue (by rw [h]) else .isFalse (by simp [h])
  | .ok a, .ok b =>
    if h : a = b then .isTrue (by rw [h]) else .isFalse (by simp [h])
  | .error _, .ok _ => .isFalse (by simp)
  | .ok _, .error _ => .isFalse (by simp)

/-! ### Helper lemmas -/

theorem str_0x_eq : str "0x" = ['0', 'x'] := rfl

theorem isPrefixOf_0x_cons (t : List Char) :
    (str "0x").isPrefixOf ('0' :: 'x' :: t) = true := by
  rw [str_0x_eq]
  simp [List.isPrefixOf_cons₂]

theorem isPrefixOf_0x_append (t : List Char) :
    (str "0x").isPrefixOf (str "0x" ++ t) = true := isPrefixOf_0x_cons t

theorem isPrefixOf_0x_eq_true_iff (l : List Char) :
    (str "0x").isPrefixOf l = true ↔ ∃ t, l = '0' :: 'x' :: t := by
  rw [str_0x_eq]
  match l with
  | [] => simp
  | [c] => simp [List.isPrefixOf_cons₂]
  | c1 :: c2 :: t =>
    simp only [List.isPrefixOf_cons₂, List.isPrefixOf_nil_left, Bool.and_true,
      Bool.and_eq_true, beq_iff_eq, List.cons.injEq]
    constructor
    · rintro ⟨h1, h2⟩
      exact ⟨t, h1.symm, h2.symm, rfl⟩
    · rintro ⟨t2, h1, h2, h3⟩
      exact ⟨h1.symm, h2.symm⟩

/-! ### C3: claim validation -/

/-- C3: `validate_bob_spending` returns `true` exactly when the
RIPEMD-160 of the SHA-256 of the candidate secret equals the script's
hashlock, the supplied key equals the script's Bob (claimant) key, and
the signature is present with length at least 64. -/
theorem validate_claim_characterization (H : CryptoHash) (script : HTCLScript)
    (secret signature pubkey : List Char) :
    HTCLScriptValidator.validate_bob_spending H script secret signature pubkey = true ↔
      (hexEncode (H.ripemd160 (H.sha256 (pyEncode secret))) = script.hashlock ∧
       pubkey = script.bob_pubkey ∧ signature ≠ [] ∧ 64 ≤ signature.length) := by
  simp only [HTCLScriptValidator.validate_bob_spending]
  split_ifs with h1 h2 h3
  · exact ⟨fun hc => absurd hc (by decide), fun hrhs => (h1 hrhs.1).elim⟩
  · exact ⟨fun hc => absurd hc (by decide), fun hrhs => (h2 hrhs.2.1).elim⟩
  · refine ⟨fun hc => absurd hc (by decide), fun hrhs => ?_⟩
    rcases h3 with h | h
    · exact (hrhs.2.2.1 h).elim
    · exact absurd hrhs.2.2.2 (by omega)
  · push_neg at h1 h2 h3
    exact ⟨fun _ => ⟨h1, h2, h3.1, h3.2⟩, fun _ => rfl⟩

/-! ### C4: refund validation -/

/-- C4: `validate_alice_spending` returns `true` exactly when the
caller-supplied height has reached the timelock (inclusive boundary:
`current_block = timelock` is accepted), the supplied key equals the
script's Alice (refundee) key, and the signature shape is valid; in
particular it returns `false` whenever `current_block < timelock` or the
refundee key mismatches. -/
theorem validate_refund_characterization (script : HTCLScript)
    (signature pubkey : List Char) (current_block : Int) :
    HTCLScriptValidator.validate_alice_spending script signature pubkey current_block = true ↔
      (script.timelock ≤ current_block ∧ pubkey = script.alice_pubkey ∧
       signature ≠ [] ∧ 64 ≤ signature.length) := by
  simp only [HTCLScriptValidator.validate_alice_spending]
  split_ifs with h1 h2 h3
  · exact ⟨fun hc => absurd hc (by decide), fun hrhs => absurd hrhs.1 (by omega)⟩
  · exact ⟨fun hc => absurd hc (by decide), fun hrhs => (h2 hrhs.2.1).elim⟩
  · refine ⟨fun hc => absurd hc (by decide), fun hrhs => ?_⟩
    rcases h3 with h | h
    · exact (hrhs.2.2.1 h).elim
    · exact absurd hrhs.2.2.2 (by omega)
  · push_neg at h1 h2 h3
    exact ⟨fun _ => ⟨by omega, h2, h3.1, h3.2⟩, fun _ => rfl⟩

/-! ### The compilation path of `create` -/

/-- Any `script_parts` list shaped like the one `create` builds makes
`_script_parts_to_hex` raise: the third part starts with `"OP_"`, so the
`getattr` branch handles it and finds no matching class attribute. -/
theorem script_parts_to_hex_push_error (hl : List Char) (rest : List (List Char)) :
    HTCLScriptGenerator._script_parts_to_hex
      (str "OP_DUP" :: str "OP_HASH160" :: (str "OP_PUSHDATA(" ++ hl ++ str ")") :: rest)
      = .error .attributeError := rfl

/-- Shared helper: once the three parameter validations pass, `create`
always raises `AttributeError` from `_script_parts_to_hex`. -/
theorem create_validated_attr_error (H : CryptoHash) (alice_pubkey bob_pubkey : List Char)
    (timelock : Int) (hashlock : List Char)
    (ha : alice_pubkey ≠ []) (hb : bob_pubkey ≠ []) (ht : 0 < timelock)
    (hh : hashlock.length = 40) :
    HTCLScriptGenerator.create H alice_pubkey bob_pubkey timelock hashlock
      = .error .attributeError := by
  unfold HTCLScriptGenerator.create
  rw [if_neg (by simp [ha, hb]), if_neg (by omega),
    if_neg (fun hcon => hcon.elim (fun h => by subst h; simp at hh) (fun h => h hh))]
  simp only [script_parts_to_hex_push_error]

/-! ### C2: compilation crashes on every validated input -/

/-- C2: for every input that passes the parameter validation in
`create` (non-empty keys, positive timelock, 40-character hashlock), the
call raises an exception (`AttributeError` from `_script_parts_to_hex`)
instead of returning an `HTCLScript`. -/
theorem create_always_raises_after_validation (H : CryptoHash)
    (alice_pubkey bob_pubkey : List Char) (timelock : Int) (hashlock : List Char)
    (ha : alice_pubkey ≠ []) (hb : bob_pubkey ≠ []) (ht : 0 < timelock)
    (hh : hashlock.length = 40) :
    HTCLScriptGenerator.create H alice_pubkey bob_pubkey timelock hashlock
      = .error .attributeError :=
  create_validated_attr_error H alice_pubkey bob_pubkey timelock hashlock ha hb ht hh

/-- Witness for C2 at a concrete validated input. -/
theorem create_always_raises_after_validation_witness :
    HTCLScriptGenerator.create dummyHash (str "02") (str "03") 1000000
      (str "0000000000000000000000000000000000000000") = .error .attributeError :=
  create_always_raises_after_validation dummyHash (str "02") (str "03") 1000000
    (str "0000000000000000000000000000000000000000")
    (by decide) (by decide) (by decide) (by decide)

/-! ### C1: the byte-exact program is never produced -/

/-- C1 (refuting evaluation): on a representative input accepted by
validation (non-empty keys, `timelock = 1000000`, a 40-hex-character
hashlock), `create` raises `AttributeError` instead of producing the
compiled program: the first `OP_PUSHDATA(...)` part is routed to the
`getattr` branch by its `"OP_"` first characters. -/
theorem create_crashes_on_valid_input :
    HTCLScriptGenerator.create dummyHash
      (str "02aaaaaaaaaaaaaaaaaaaaaaaaaaaaaaaaaaaaaaaaaaaaaaaaaaaaaaaaaaaaaaaa")
      (str "02bbbbbbbbbbbbbbbbbbbbbbbbbbbbbbbbbbbbbbbbbbbbbbbbbbbbbbbbbbbbbbbb")
      1000000
      (str "00112233445566778899aabbccddeeff00112233")
      = .error .attributeError := by
  exact create_validated_attr_error dummyHash _ _ _ _
    (by decide) (by decide) (by decide) (by decide)

/-! ### C9: parameter validation of `create` -/

/-- C9: `create` rejects bad constructor input before compiling — an
empty claimant or refundee key, a non-positive timelock, or a hashlock
whose length is not 40 hex characters each fail with a `ValueError`
naming the offending field; any input passing all three checks gets past
validation (no `ValueError` is raised; the later compilation failure is
an `AttributeError`, not a parameter-validation error). -/
theorem create_validation_characterization (H : CryptoHash)
    (alice_pubkey bob_pubkey : List Char) (timelock : Int) (hashlock : List Char) :
    (alice_pubkey = [] ∨ bob_pubkey = [] →
      HTCLScriptGenerator.create H alice_pubkey bob_pubkey timelock hashlock
        = .error (.valueError (str "Public keys cannot be empty"))) ∧
    (alice_pubkey ≠ [] → bob_pubkey ≠ [] → timelock ≤ 0 →
      HTCLScriptGenerator.create H alice_pubkey bob_pubkey timelock hashlock
        = .error (.valueError (str "Timelock must be positive"))) ∧
    (alice_pubkey ≠ [] → bob_pubkey ≠ [] → 0 < timelock → hashlock.length ≠ 40 →
      HTCLScriptGenerator.create H alice_pubkey bob_pubkey timelock hashlock
        = .error (.valueError (str "Hashlock must be 20 bytes (40 hex characters)"))) ∧
    (alice_pubkey ≠ [] → bob_pubkey ≠ [] → 0 < timelock → hashlock.length = 40 →
      ∀ msg, HTCLScriptGenerator.create H alice_pubkey bob_pubkey timelock hashlock
        ≠ .error (.valueError msg)) := by
  refine ⟨fun h => ?_, fun ha hb ht => ?_, fun ha hb ht hh => ?_, fun ha hb ht hh msg => ?_⟩
  · unfold HTCLScriptGenerator.create
    rw [if_pos h]
  · unfold HTCLScriptGenerator.create
    rw [if_neg (by simp [ha, hb]), if_pos ht]
  · unfold HTCLScriptGenerator.create
    rw [if_neg (by simp [ha, hb]), if_neg (by omega), if_pos (Or.inr hh)]
  · rw [create_validated_attr_error H alice_pubkey bob_pubkey timelock hashlock ha hb ht hh]
    simp

/-- Witness for C9 at concrete inputs: an empty claimant key is rejected
with the key-naming message. -/
theorem create_validation_characterization_witness :
    HTCLScriptGenerator.create dummyHash [] (str "03") 5 (str "ab")
      = .error (.valueError (str "Public keys cannot be empty")) :=
  (create_validation_characterization dummyHash [] (str "03") 5 (str "ab")).1 (Or.inl rfl)

/-! ### C5: funding transaction construction -/

/-- C5: `create_funding_transaction` fails with the insufficient-funds
`ValueError` exactly when the summed input amounts fall short of
`amount + fee`; any transaction it returns carries exactly one HTCL
output paying `amount` to the script's committed address, followed by one
change output of value `input_total - amount - fee` exactly when that
change is positive. -/
theorem funding_characterization (self : HTCLTransactionBuilder) (script : HTCLScript)
    (amount fee : Int) (input_utxos : List UTXO) (change_address : List Char) :
    (self.create_funding_transaction script amount fee input_utxos change_address
        = .error (.valueError (str "Insufficient funds for transaction"))
      ↔ (input_utxos.map (·.amount)).sum < amount + fee) ∧
    (∀ tx, self.create_funding_transaction script amount fee input_utxos change_address
        = .ok tx →
      tx.outputs =
        (⟨amount, str "OP_HASH160 " ++ script.p2sh_address ++ str " OP_EQUAL",
          script.p2sh_address⟩ : TxOutput) ::
        (if (input_utxos.map (·.amount)).sum - amount - fee > 0 then
          [(⟨(input_utxos.map (·.amount)).sum - amount - fee,
             str "OP_DUP OP_HASH160 " ++ change_address ++ str " OP_EQUALVERIFY OP_CHECKSIG",
             change_address⟩ : TxOutput)]
         else [])) := by
  simp only [HTCLTransactionBuilder.create_funding_transaction]
  constructor
  · split_ifs with h
    · exact ⟨fun _ => by omega, fun _ => rfl⟩
    · exact ⟨fun herr => by simp at herr, fun hlt => absurd hlt (by omega)⟩
  · intro tx htx
    split_ifs at htx with h h2 <;> simp at htx <;> subst htx <;> simp [h2]

/-- Witness for C5: with one 1,000,000 input, amount 500,000 and fee
1,000 the builder returns the HTCL output plus a 499,000 change
output. -/
theorem funding_characterization_witness :
    (⟨[], 1, [⟨str "feed", 0, [], 0xffffffff⟩],
       [⟨500000, str "OP_HASH160 " ++ str "addr" ++ str " OP_EQUAL", str "addr"⟩,
        ⟨499000, str "OP_DUP OP_HASH160 " ++ str "chg" ++ str " OP_EQUALVERIFY OP_CHECKSIG",
         str "chg"⟩], 0⟩ : HTCLTransaction).outputs =
      (⟨500000, str "OP_HASH160 " ++ str "addr" ++ str " OP_EQUAL",
        str "addr"⟩ : TxOutput) ::
      (if (([(⟨str "feed", 0, 1000000⟩ : UTXO)].map (·.amount)).sum - 500000 - 1000 > 0) then
        [(⟨([(⟨str "feed", 0, 1000000⟩ : UTXO)].map (·.amount)).sum - 500000 - 1000,
           str "OP_DUP OP_HASH160 " ++ str "chg" ++ str " OP_EQUALVERIFY OP_CHECKSIG",
           str "chg"⟩ : TxOutput)]
       else []) :=
  (funding_characterization (HTCLTransactionBuilder.init (str "mainnet"))
    (⟨str "02aa", str "02bb", 100, str "61", str "beef", str "addr"⟩ : HTCLScript)
    500000 1000 [⟨str "feed", 0, 1000000⟩] (str "chg")).2
    ⟨[], 1, [⟨str "feed", 0, [], 0xffffffff⟩],
     [⟨500000, str "OP_HASH160 " ++ str "addr" ++ str " OP_EQUAL", str "addr"⟩,
      ⟨499000, str "OP_DUP OP_HASH160 " ++ str "chg" ++ str " OP_EQUALVERIFY OP_CHECKSIG",
       str "chg"⟩], 0⟩ (by decide)

/-! ### C6: the claim builder rejects even a correct secret -/

/-- C6 (refuting evaluation): with the identity digest instantiation, the
secret `"a"` digests exactly to the script's hashlock and passes
`validate_bob_spending` with a 64-character signature; yet
`create_bob_withdrawal_transaction` for that same secret raises
`ValueError` instead of returning a transaction, because its pre-check is
invoked with the 15-character placeholder `"dummy_signature"`, which
fails the signature-length check. -/
theorem bob_withdrawal_rejects_correct_secret :
    HTCLScriptValidator.validate_bob_spending dummyHash
        (⟨str "02aa", str "02bb", 100, str "61", str "beef", str "addr"⟩ : HTCLScript)
        (str "a")
        (str "0000000000000000000000000000000000000000000000000000000000000000")
        (str "02bb") = true ∧
    HTCLTransactionBuilder.create_bob_withdrawal_transaction dummyHash
        (HTCLTransactionBuilder.init (str "mainnet"))
        (⟨str "02aa", str "02bb", 100, str "61", str "beef", str "addr"⟩ : HTCLScript)
        (str "a") 500000 1000 (str "key") (str "dest")
      = .error (.valueError (str "Invalid spending conditions for Bob")) := by
  decide

/-! ### C7: hashlock representation conversion -/

/-- C7: the hashlock conversions are lossless inverses: prefixing a raw
(unprefixed) hashlock and stripping it back is the identity, and
stripping a `0x`-prefixed hex hashlock and prefixing it back is the
identity (the hex-digit hypothesis states that the payload is a hex
digest, which excludes a second embedded `0x` marker). -/
theorem hashlock_conversion_roundtrips (r p : List Char) :
    ((str "0x").isPrefixOf r = false →
      evm_to_dogecoin_hashlock (dogecoin_to_evm_hashlock r) = r) ∧
    ((str "0x").isPrefixOf p = true →
      (∀ c ∈ p.drop 2, (hexDigitVal c).isSome) →
      dogecoin_to_evm_hashlock (evm_to_dogecoin_hashlock p) = p) := by
  constructor
  · intro hr
    unfold dogecoin_to_evm_hashlock
    rw [if_neg (show ¬((str "0x").isPrefixOf r = true) from by simp [hr])]
    unfold evm_to_dogecoin_hashlock
    rw [if_pos (isPrefixOf_0x_append r)]
    rfl
  · intro hp hhex
    obtain ⟨t, rfl⟩ := (isPrefixOf_0x_eq_true_iff p).mp hp
    have hneg : ¬((str "0x").isPrefixOf t = true) := by
      intro hcon
      obtain ⟨t2, ht2⟩ := (isPrefixOf_0x_eq_true_iff t).mp hcon
      have hx := hhex 'x' (by simp [ht2])
      simp [hexDigitVal] at hx
    have hdrop : evm_to_dogecoin_hashlock ('0' :: 'x' :: t) = t := by
      unfold evm_to_dogecoin_hashlock
      rw [if_pos (isPrefixOf_0x_cons t)]
      rfl
    rw [hdrop]
    unfold dogecoin_to_evm_hashlock
    rw [if_neg hneg]
    rfl

/-- Witness for C7 at concrete hashlock strings `"ab"` and `"0xab"`. -/
theorem hashlock_conversion_roundtrips_witness :
    evm_to_dogecoin_hashlock (dogecoin_to_evm_hashlock (str "ab")) = str "ab" ∧
    dogecoin_to_evm_hashlock (evm_to_dogecoin_hashlock (str "0xab")) = str "0xab" :=
  ⟨(hashlock_conversion_roundtrips (str "ab") (str "0xab")).1 (by decide),
   (hashlock_conversion_roundtrips (str "ab") (str "0xab")).2 (by decide) (by decide)⟩

/-! ### C8: P2SH address derivation -/

/-- C8: `_script_to_p2sh_address` computes exactly the §4.3 pipeline —
SHA-256 then RIPEMD-160 of the program bytes, the one-byte network
version marker `0x05` prepended, a checksum of the first 4 bytes of a
double SHA-256 of the versioned payload appended, base-58 encoded — and
it is a pure function of the program bytes: any hex spelling decoding to
the same program yields the identical address string. -/
theorem address_derivation_refines_spec (H : CryptoHash) (script_hex : List Char)
    (program : List Nat) (hdec : hexDecode script_hex = some program) :
    HTCLScriptGenerator._script_to_p2sh_address H script_hex
        = .ok (derive_address_spec H program 0x05) ∧
    (∀ other_hex, hexDecode other_hex = some program →
      HTCLScriptGenerator._script_to_p2sh_address H other_hex
        = HTCLScriptGenerator._script_to_p2sh_address H script_hex) := by
  constructor
  · simp [HTCLScriptGenerator._script_to_p2sh_address, hdec, derive_address_spec]
  · intro other_hex ho
    simp [HTCLScriptGenerator._script_to_p2sh_address, hdec, ho]

/-- Witness for C8 at a concrete program: the hex spellings `"FF"` and
`"ff"` decode to the same byte and derive the same address. -/
theorem address_derivation_refines_spec_witness :
    HTCLScriptGenerator._script_to_p2sh_address dummyHash (str "FF")
        = .ok (derive_address_spec dummyHash [255] 0x05) ∧
    HTCLScriptGenerator._script_to_p2sh_address dummyHash (str "ff")
        = HTCLScriptGenerator._script_to_p2sh_address dummyHash (str "FF") :=
  ⟨(address_derivation_refines_spec dummyHash (str "FF") [255] (by decide)).1,
   (address_derivation_refines_spec dummyHash (str "FF") [255] (by decide)).2
      (str "ff") (by decide)⟩

/-! ### C10: the claim path consults no clock -/

/-- C10: `validate_bob_spending` takes no clock or height input: for any
point in time, including any height at or after the script's timelock, a
claim presenting the secret whose digest equals the hashlock, the key
equal to `bob_pubkey`, and a signature of length at least 64 is
accepted — the bound time variable never influences the result. -/
theorem claim_has_no_deadline (H : CryptoHash) (script : HTCLScript)
    (secret signature pubkey : List Char)
    (hsec : hexEncode (H.ripemd160 (H.sha256 (pyEncode secret))) = script.hashlock)
    (hpk : pubkey = script.bob_pubkey) (hsig : 64 ≤ signature.length) :
    ∀ current_time : Int, script.timelock ≤ current_time →
      HTCLScriptValidator.validate_bob_spending H script secret signature pubkey = true := by
  intro current_time _
  simp only [HTCLScriptValidator.validate_bob_spending]
  rw [if_neg (by simp [hsec]), if_neg (by simp [hpk]), if_neg]
  rintro (h | h)
  · subst h; simp at hsig
  · omega

/-- Witness for C10: the matching secret is accepted at a height far past
the timelock. -/
theorem claim_has_no_deadline_witness :
    HTCLScriptValidator.validate_bob_spending dummyHash
      (⟨str "02aa", str "02bb", 100, str "61", str "beef", str "addr"⟩ : HTCLScript)
      (str "a")
      (str "0000000000000000000000000000000000000000000000000000000000000000")
      (str "02bb") = true :=
  claim_has_no_deadline dummyHash
    (⟨str "02aa", str "02bb", 100, str "61", str "beef", str "addr"⟩ : HTCLScript)
    (str "a")
    (str "0000000000000000000000000000000000000000000000000000000000000000")
    (str "02bb") (by decide) (by decide) (by decide) 1000000 (by decide)
